import Mathlib

/-!
Shallow embedding of `src/main.js` (a client-side visual-effects script) and
proofs of its specified properties.

The script consists of six independent, event-driven components:
a viewport state cache, an intro sequencer, a loader gate, a scroll blend
engine, a reveal trigger and a pointer follower.  Each component is embedded
below as pure functions over explicit state, with the browser's event loop
modelled by explicit lists of events / frame boundaries.  Numeric style
values are modelled over `ℝ` (JavaScript's `Math.pow(x, 1.1)` becomes
`Real.rpow`, and `toFixed(3)` becomes rounding to 3 decimal places).
-/

namespace BareVision

/-! ### Utility: `const clamp = (v, min, max) => Math.min(max, Math.max(min, v))` -/

noncomputable def clamp (v mn mx : ℝ) : ℝ := min mx (max mn v)

/-- JavaScript `x.toFixed(3)` for the non-negative values written here:
round to the nearest multiple of `1/1000` (ties away from zero for
non-negative inputs, matching Mathlib's `round` which rounds half up). -/
noncomputable def toFixed3 (x : ℝ) : ℝ := ((round (x * 1000) : ℤ) : ℝ) / 1000

/-! ### Scroll Blend Engine state

`const state = { scrollY, docHeight, ticking }` from `main.js`. -/

structure EngineState where
  scrollY : ℝ
  docHeight : ℝ
  ticking : Bool

/-- Which of the blend-target elements are present in the page
(`.bg-sunrise`, `.bg-sunset`, `.bg-overlay`). -/
structure BlendConfig where
  hasSunrise : Bool
  hasSunset : Bool
  hasOverlay : Bool

/-- The style writes performed by one run of `updateVisuals`:
`none` means the corresponding style property was not written. -/
structure StyleWrites where
  sunriseOpacity : Option ℝ
  sunsetOpacity : Option ℝ
  sunriseTranslateY : Option ℝ
  sunsetTranslateY : Option ℝ
  overlayOpacity : Option ℝ

/-- The empty set of style writes. -/
def StyleWrites.none : StyleWrites := ⟨Option.none, Option.none, Option.none, Option.none, Option.none⟩

/-- The normalized, power-curved blend progress:
`Math.pow(clamp(scrollY / docHeight, 0, 1), 1.1)` from `main.js`. -/
noncomputable def gammaOf (scrollY docHeight : ℝ) : ℝ :=
  clamp (scrollY / docHeight) 0 1 ^ (1.1 : ℝ)

/-- `updateVisuals` from `main.js`: guard on non-positive `docHeight`
(clearing the ticking flag, writing nothing), otherwise compute `gamma`
and batch the opacity / transform writes. -/
noncomputable def updateVisuals (cfg : BlendConfig) (s : EngineState) :
    EngineState × StyleWrites :=
  if s.docHeight ≤ 0 then
    ({ s with ticking := false }, StyleWrites.none)
  else
    let gamma := gammaOf s.scrollY s.docHeight
    ({ s with ticking := false },
     { sunriseOpacity :=
         if cfg.hasSunrise && cfg.hasSunset then some (toFixed3 (1 - gamma)) else Option.none
       sunsetOpacity :=
         if cfg.hasSunrise && cfg.hasSunset then some (toFixed3 gamma) else Option.none
       sunriseTranslateY :=
         if cfg.hasSunrise && cfg.hasSunset then some (-(gamma * 8)) else Option.none
       sunsetTranslateY :=
         if cfg.hasSunrise && cfg.hasSunset then some (-(gamma * 12)) else Option.none
       overlayOpacity :=
         if cfg.hasOverlay then some (0.08 + gamma * 0.18) else Option.none })

/-! ### Basic lemmas about `clamp`, `toFixed3` and `gammaOf` -/

theorem clamp_nonneg (v mx : ℝ) (hmx : 0 ≤ mx) : 0 ≤ clamp v 0 mx :=
  le_min hmx (le_max_left 0 v)

theorem clamp_le (v mn mx : ℝ) : clamp v mn mx ≤ mx := min_le_left mx _

theorem clamp_of_nonpos (v mx : ℝ) (hv : v ≤ 0) (hmx : 0 ≤ mx) :
    clamp v 0 mx = 0 := by
  unfold clamp
  rw [max_eq_left hv, min_eq_right hmx]

theorem clamp_of_ge (v mx : ℝ) (hv : mx ≤ v) (hmx : 0 ≤ mx) :
    clamp v 0 mx = mx := by
  unfold clamp
  rw [max_eq_right (hmx.trans hv), min_eq_left hv]

theorem clamp_mono (mn mx : ℝ) {v w : ℝ} (h : v ≤ w) :
    clamp v mn mx ≤ clamp w mn mx :=
  min_le_min le_rfl (max_le_max le_rfl h)

theorem toFixed3_close (x : ℝ) : |toFixed3 x - x| ≤ 1 / 2000 := by
  unfold toFixed3
  have h := abs_sub_round (x * 1000)
  have h1000 : (0:ℝ) < 1000 := by norm_num
  rw [show ((round (x * 1000) : ℤ) : ℝ) / 1000 - x
        = ((round (x * 1000) : ℤ) - x * 1000) / 1000 by ring,
      abs_div, abs_of_pos h1000, abs_sub_comm]
  rw [div_le_div_iff₀ h1000 (by norm_num : (0:ℝ) < 2000)]
  linarith

theorem toFixed3_zero : toFixed3 0 = 0 := by
  unfold toFixed3
  norm_num

theorem toFixed3_one : toFixed3 1 = 1 := by
  unfold toFixed3
  have : round ((1:ℝ) * 1000) = 1000 := by
    rw [show (1:ℝ) * 1000 = ((1000 : ℤ) : ℝ) by norm_num, round_intCast]
  rw [this]
  norm_num

theorem toFixed3_mono {x y : ℝ} (h : x ≤ y) : toFixed3 x ≤ toFixed3 y := by
  unfold toFixed3
  have hr : round (x * 1000) ≤ round (y * 1000) := by
    rw [round_eq, round_eq]
    exact Int.floor_le_floor (by linarith)
  have : ((round (x * 1000) : ℤ) : ℝ) ≤ ((round (y * 1000) : ℤ) : ℝ) := by
    exact_mod_cast hr
  linarith

theorem gammaOf_nonneg (y dh : ℝ) : 0 ≤ gammaOf y dh :=
  Real.rpow_nonneg (clamp_nonneg _ _ (by norm_num)) _

theorem gammaOf_le_one (y dh : ℝ) : gammaOf y dh ≤ 1 :=
  Real.rpow_le_one (clamp_nonneg _ _ (by norm_num)) (clamp_le _ _ _) (by norm_num)

theorem gammaOf_of_nonpos (y dh : ℝ) (hy : y ≤ 0) (hdh : 0 < dh) :
    gammaOf y dh = 0 := by
  unfold gammaOf
  rw [clamp_of_nonpos _ _ (div_nonpos_of_nonpos_of_nonneg hy hdh.le) (by norm_num)]
  exact Real.zero_rpow (by norm_num)

theorem gammaOf_of_overscroll (y dh : ℝ) (hy : dh < y) (hdh : 0 < dh) :
    gammaOf y dh = 1 := by
  unfold gammaOf
  rw [clamp_of_ge _ _ (le_of_lt ((one_lt_div hdh).mpr hy)) (by norm_num)]
  exact Real.one_rpow _

theorem gammaOf_mono (dh : ℝ) (hdh : 0 < dh) {y1 y2 : ℝ} (h : y1 ≤ y2) :
    gammaOf y1 dh ≤ gammaOf y2 dh := by
  unfold gammaOf
  refine Real.rpow_le_rpow (clamp_nonneg _ _ (by norm_num))
    (clamp_mono 0 1 ?_) (by norm_num)
  gcongr

/-! ### Scroll event handling and frame callbacks

`onScroll` from `main.js`: record the new offset synchronously; if no
frame callback is pending (`ticking` is false), schedule one and set the
flag.  The returned `Bool` records whether this event scheduled a frame
callback (`requestAnimationFrame` was invoked). -/

def onScroll (o : ℝ) (s : EngineState) : EngineState × Bool :=
  let s1 : EngineState := { s with scrollY := o }
  if s1.ticking then (s1, false)
  else ({ s1 with ticking := true }, true)

/-- Process a burst of scroll events (all arriving before the next rendered
frame), returning the resulting state and how many frame callbacks the
burst scheduled. -/
def processScrolls (os : List ℝ) (s : EngineState) : EngineState × ℕ :=
  match os with
  | [] => (s, 0)
  | o :: rest =>
      let p := onScroll o s
      let q := processScrolls rest p.1
      (q.1, (if p.2 then 1 else 0) + q.2)

/-- A rendered frame: the scheduled `requestAnimationFrame` callback
(`updateVisuals`) runs exactly when one is pending (`ticking` is true,
which the engine maintains in lock-step with a pending callback).  Returns
the new state and the list of recomputations the frame performed, each
recorded as the scroll offset it used together with its style writes. -/
noncomputable def runFrame (cfg : BlendConfig) (s : EngineState) :
    EngineState × List (ℝ × StyleWrites) :=
  if s.ticking then
    ((updateVisuals cfg s).1, [(s.scrollY, (updateVisuals cfg s).2)])
  else (s, [])

/-- Engine initialization from `main.js`: only when both parallax layers
exist does the script attach the scroll listener and run `updateVisuals`
once.  Returns whether the listener was attached and the list of
initialization runs performed. -/
noncomputable def initScrollEngine (cfg : BlendConfig) (s : EngineState) :
    Bool × List (ℝ × StyleWrites) :=
  if cfg.hasSunrise && cfg.hasSunset then
    (true, [(s.scrollY, (updateVisuals cfg s).2)])
  else (false, [])

/-! ### Loader Gate -/

/-- The loader overlay's DOM state: whether the element is still in the
page, whether it carries the `hidden` class, and the delayed removal
timers currently scheduled (each recorded by its delay in ms). -/
structure LoaderState where
  present : Bool
  hidden : Bool
  removeTimers : List ℕ
deriving DecidableEq

/-- `removeLoader` from `main.js`: no-op when the overlay is absent or
already hidden; otherwise add the `hidden` class now and schedule the
element's removal after 900ms. -/
def removeLoader (s : LoaderState) : LoaderState :=
  if !s.present || s.hidden then s
  else { present := s.present, hidden := true, removeTimers := s.removeTimers ++ [900] }

/-- Firing the scheduled removal timers: each pending timer calls
`pageLoader.remove()`, after which the element is gone from the page. -/
def fireRemoveTimers (s : LoaderState) : LoaderState :=
  if s.removeTimers.isEmpty then s
  else { present := false, hidden := s.hidden, removeTimers := [] }

/-- One tracked background image: whether it had already finished loading
when the gate was built (`img.complete`), and otherwise when (if ever) its
load settles and whether it settles by success or failure. -/
structure ImgEl where
  complete : Bool
  finish : Option (ℕ × Bool)
deriving DecidableEq

/-- Resolution time (ms) of the per-image completion signal built by the
gate: an already-complete image resolves immediately; otherwise the signal
resolves when the image settles, successfully or not (`img.onload = resolve;
img.onerror = resolve`); an image that never settles never resolves (`⊤`). -/
def signalTime (img : ImgEl) : WithTop ℕ :=
  if img.complete then (0 : WithTop ℕ)
  else
    match img.finish with
    | some tb => (tb.1 : WithTop ℕ)
    | Option.none => ⊤

/-- Resolution time of `Promise.all` over the per-image signals: all must
have resolved, so it resolves at the latest signal time. -/
def allSignalsTime (imgs : List ImgEl) : WithTop ℕ :=
  imgs.foldr (fun i acc => max (signalTime i) acc) 0

/-- How and when the loader gate triggers dismissal. -/
inductive LoaderDismissal where
  | sync : LoaderDismissal
  | async : WithTop ℕ → LoaderDismissal
deriving DecidableEq

/-- The loader gate from `main.js`: with zero tracked images call
`removeLoader()` synchronously on the same tick; otherwise race
`Promise.all` of the image signals against a 1500ms timer, dismissing at
whichever resolves first. -/
def loaderGate (imgs : List ImgEl) : LoaderDismissal :=
  if imgs.isEmpty then LoaderDismissal.sync
  else LoaderDismissal.async (min (allSignalsTime imgs) (1500 : WithTop ℕ))

/-! ### Intro Sequencer -/

/-- The three staged visual changes of the hero intro. -/
inductive IntroAction where
  | markVisible : IntroAction
  | shimmer : IntroAction
  | floaty : IntroAction
deriving DecidableEq

/-- When a staged change fires: on the next paint opportunity
(`requestAnimationFrame`) or after an absolute delay in ms from start. -/
inductive IntroTiming where
  | nextPaint : IntroTiming
  | afterMs : ℕ → IntroTiming
deriving DecidableEq

/-- The intro sequence from `main.js`: guarded on both title elements
being present; `requestAnimationFrame` marks the title visible, a 400ms
timer shifts the background position, and a nested 1600ms timer (so
400 + 1600 from start) adds the `floaty` class.  Absent elements skip the
whole sequence: no actions, no timers. -/
def introSequence (hasTitleEl hasTitleText : Bool) : List (IntroTiming × IntroAction) :=
  if hasTitleEl && hasTitleText then
    [(IntroTiming.nextPaint, IntroAction.markVisible),
     (IntroTiming.afterMs 400, IntroAction.shimmer),
     (IntroTiming.afterMs (400 + 1600), IntroAction.floaty)]
  else []

/-! ### Reveal Trigger -/

/-- State of the `IntersectionObserver` component: which elements
(identified by index) are currently observed, and which carry the
`visible` class. -/
structure RevealState where
  observed : List ℕ
  visible : List ℕ
deriving DecidableEq

/-- One intersection notification delivered to the observer callback. -/
structure ObsEntry where
  target : ℕ
  isIntersecting : Bool
deriving DecidableEq

/-- The observer callback body from `main.js`, for a single entry: when
the entry is intersecting, add the `visible` class (`classList.add` is
idempotent) and unobserve the target; otherwise do nothing. -/
def processEntry (s : RevealState) (e : ObsEntry) : RevealState :=
  if e.isIntersecting then
    { observed := s.observed.filter (fun t => t ≠ e.target)
      visible := if e.target ∈ s.visible then s.visible else e.target :: s.visible }
  else s

/-- Run a sequence of intersection notifications through the callback. -/
def runEntries (s : RevealState) (es : List ObsEntry) : RevealState :=
  es.foldl processEntry s

/-- A notification sequence the browser can actually deliver: the observer
only fires entries for elements it currently observes. -/
def validTrace (s : RevealState) (es : List ObsEntry) : Bool :=
  match es with
  | [] => true
  | e :: rest => e.target ∈ s.observed && validTrace (processEntry s e) rest

/-! ### Pointer Follower -/

/-- A tracked orb element's bounding box (the fields `moveOrbs` reads). -/
structure OrbRect where
  left : ℚ
  top : ℚ
deriving DecidableEq

/-- A `mousemove` event's pointer coordinates. -/
structure PointerEvent where
  clientX : ℚ
  clientY : ℚ
deriving DecidableEq

/-- Pointer follower state: the throttle flag `mouseTicking`, and the
event captured by the pending `requestAnimationFrame` closure
(`() => moveOrbs(e)`), if one is scheduled. -/
structure PointerState where
  mouseTicking : Bool
  pendingEvent : Option PointerEvent
deriving DecidableEq

/-- `moveOrbs` from `main.js`: for every tracked orb, compute the pointer
position relative to its bounding box and write the `--mx` / `--my`
custom properties; the returned list records the coordinate pair written
to each orb, in order. -/
def moveOrbs (orbs : List OrbRect) (e : PointerEvent) : List (ℚ × ℚ) :=
  orbs.map (fun r => (e.clientX - r.left, e.clientY - r.top))

/-- The `mousemove` listener from `main.js`: when no update is pending,
schedule `() => moveOrbs(e)` — capturing THIS event — and set the flag;
when an update is already pending, do nothing at all (the event's
coordinates are not recorded anywhere). -/
def onMouseMove (e : PointerEvent) (s : PointerState) : PointerState :=
  if s.mouseTicking then s
  else { mouseTicking := true, pendingEvent := some e }

/-- Process a burst of `mousemove` events arriving within one frame. -/
def processMoves (es : List PointerEvent) (s : PointerState) : PointerState :=
  es.foldl (fun s e => onMouseMove e s) s

/-- A rendered frame for the pointer follower: the scheduled callback, if
any, runs `moveOrbs` on its captured event and clears the flag.  Returns
the new state and the list of batched updates performed (each a list of
per-orb coordinate writes). -/
def runPointerFrame (orbs : List OrbRect) (s : PointerState) :
    PointerState × List (List (ℚ × ℚ)) :=
  match s.pendingEvent with
  | some e => (⟨false, Option.none⟩, [moveOrbs orbs e])
  | Option.none => (s, [])

/-! ### Helper lemmas on the embedded components -/

/-- The style writes one recomputation performs when every blend target is
present (the page configuration the engine is designed for). -/
noncomputable def writesAt (y dh : ℝ) : StyleWrites :=
  (updateVisuals ⟨true, true, true⟩ ⟨y, dh, true⟩).2

theorem updateVisuals_pos (cfg : BlendConfig) (s : EngineState)
    (hdh : 0 < s.docHeight) :
    updateVisuals cfg s =
      ({ s with ticking := false },
       { sunriseOpacity :=
           if cfg.hasSunrise && cfg.hasSunset then
             some (toFixed3 (1 - gammaOf s.scrollY s.docHeight)) else Option.none
         sunsetOpacity :=
           if cfg.hasSunrise && cfg.hasSunset then
             some (toFixed3 (gammaOf s.scrollY s.docHeight)) else Option.none
         sunriseTranslateY :=
           if cfg.hasSunrise && cfg.hasSunset then
             some (-(gammaOf s.scrollY s.docHeight * 8)) else Option.none
         sunsetTranslateY :=
           if cfg.hasSunrise && cfg.hasSunset then
             some (-(gammaOf s.scrollY s.docHeight * 12)) else Option.none
         overlayOpacity :=
           if cfg.hasOverlay then
             some (0.08 + gammaOf s.scrollY s.docHeight * 0.18) else Option.none }) := by
  unfold updateVisuals
  rw [if_neg (not_le.mpr hdh)]

theorem writesAt_eq (y dh : ℝ) (hdh : 0 < dh) :
    writesAt y dh =
      { sunriseOpacity := some (toFixed3 (1 - gammaOf y dh))
        sunsetOpacity := some (toFixed3 (gammaOf y dh))
        sunriseTranslateY := some (-(gammaOf y dh * 8))
        sunsetTranslateY := some (-(gammaOf y dh * 12))
        overlayOpacity := some (0.08 + gammaOf y dh * 0.18) } := by
  unfold writesAt
  rw [updateVisuals_pos _ _ hdh]
  simp

theorem updateVisuals_ticking (cfg : BlendConfig) (s : EngineState) :
    (updateVisuals cfg s).1.ticking = false := by
  unfold updateVisuals
  split
  · rfl
  · rfl

theorem onScroll_scrollY (o : ℝ) (s : EngineState) :
    (onScroll o s).1.scrollY = o := by
  cases h : s.ticking <;> simp [onScroll, h]

theorem onScroll_docHeight (o : ℝ) (s : EngineState) :
    (onScroll o s).1.docHeight = s.docHeight := by
  cases h : s.ticking <;> simp [onScroll, h]

theorem onScroll_ticking (o : ℝ) (s : EngineState) :
    (onScroll o s).1.ticking = true := by
  cases h : s.ticking <;> simp [onScroll, h]

theorem onScroll_scheduled (o : ℝ) (s : EngineState) :
    (onScroll o s).2 = !s.ticking := by
  cases h : s.ticking <;> simp [onScroll, h]

theorem processScrolls_scrollY (os : List ℝ) (s : EngineState) :
    (processScrolls os s).1.scrollY = os.getLastD s.scrollY := by
  induction os generalizing s with
  | nil => rfl
  | cons o rest ih =>
      show (processScrolls rest (onScroll o s).1).1.scrollY = _
      rw [ih, onScroll_scrollY, List.getLastD_cons]

theorem processScrolls_docHeight (os : List ℝ) (s : EngineState) :
    (processScrolls os s).1.docHeight = s.docHeight := by
  induction os generalizing s with
  | nil => rfl
  | cons o rest ih =>
      show (processScrolls rest (onScroll o s).1).1.docHeight = _
      rw [ih, onScroll_docHeight]

theorem processScrolls_ticking (os : List ℝ) (s : EngineState) :
    (processScrolls os s).1.ticking = (s.ticking || !os.isEmpty) := by
  induction os generalizing s with
  | nil => simp [processScrolls]
  | cons o rest ih =>
      show (processScrolls rest (onScroll o s).1).1.ticking = _
      rw [ih, onScroll_ticking]
      simp

theorem processScrolls_count (os : List ℝ) (s : EngineState) :
    (processScrolls os s).2
      = if s.ticking then 0 else if os.isEmpty then 0 else 1 := by
  induction os generalizing s with
  | nil => simp [processScrolls]
  | cons o rest ih =>
      show (if (onScroll o s).2 then 1 else 0)
            + (processScrolls rest (onScroll o s).1).2 = _
      rw [ih, onScroll_ticking, onScroll_scheduled]
      cases h : s.ticking <;> simp

theorem runFrame_pending (cfg : BlendConfig) (s : EngineState)
    (h : s.ticking = true) :
    runFrame cfg s = ((updateVisuals cfg s).1, [(s.scrollY, (updateVisuals cfg s).2)]) := by
  unfold runFrame
  rw [if_pos h]

theorem runFrame_idle (cfg : BlendConfig) (s : EngineState)
    (h : s.ticking = false) :
    runFrame cfg s = (s, []) := by
  unfold runFrame
  rw [if_neg (by simp [h])]

theorem processMoves_ticking_fixed (es : List PointerEvent) (p : Option PointerEvent) :
    processMoves es ⟨true, p⟩ = ⟨true, p⟩ := by
  induction es with
  | nil => rfl
  | cons e rest ih =>
      show processMoves rest (onMouseMove e ⟨true, p⟩) = _
      rw [show onMouseMove e ⟨true, p⟩ = ⟨true, p⟩ from rfl, ih]

theorem processMoves_captures_head (e : PointerEvent) (es : List PointerEvent) :
    processMoves (e :: es) ⟨false, Option.none⟩ = ⟨true, some e⟩ := by
  show processMoves es (onMouseMove e ⟨false, Option.none⟩) = _
  rw [show onMouseMove e ⟨false, Option.none⟩ = ⟨true, some e⟩ from rfl,
    processMoves_ticking_fixed]

theorem processEntry_visible_mono (s : RevealState) (e : ObsEntry) (x : ℕ)
    (h : x ∈ s.visible) : x ∈ (processEntry s e).visible := by
  unfold processEntry
  split
  · simp only []
    split
    · exact h
    · exact List.mem_cons_of_mem _ h
  · exact h

theorem runEntries_visible_mono (es : List ObsEntry) (s : RevealState) (x : ℕ)
    (h : x ∈ s.visible) : x ∈ (runEntries s es).visible := by
  induction es generalizing s with
  | nil => exact h
  | cons e rest ih =>
      exact ih (processEntry s e) (processEntry_visible_mono s e x h)

theorem processEntry_observed_mono (s : RevealState) (e : ObsEntry) (x : ℕ)
    (h : x ∉ s.observed) : x ∉ (processEntry s e).observed := by
  unfold processEntry
  split
  · intro hmem
    exact h (List.mem_of_mem_filter hmem)
  · exact h

theorem processEntry_visible_other (s : RevealState) (e : ObsEntry) (x : ℕ)
    (hne : e.target ≠ x) :
    (x ∈ (processEntry s e).visible ↔ x ∈ s.visible) := by
  unfold processEntry
  split
  · simp only []
    split
    · exact Iff.rfl
    · constructor
      · intro hmem
        rcases List.mem_cons.mp hmem with h | h
        · exact absurd h.symm hne
        · exact h
      · exact List.mem_cons_of_mem _
  · exact Iff.rfl

theorem runEntries_frozen (es : List ObsEntry) (s : RevealState) (x : ℕ)
    (hval : validTrace s es = true) (hobs : x ∉ s.observed) :
    (x ∈ (runEntries s es).visible ↔ x ∈ s.visible)
    ∧ x ∉ (runEntries s es).observed := by
  induction es generalizing s with
  | nil => exact ⟨Iff.rfl, hobs⟩
  | cons e rest ih =>
      have hv : e.target ∈ s.observed ∧ validTrace (processEntry s e) rest = true := by
        simpa [validTrace] using hval
      have hne : e.target ≠ x := fun h => hobs (h ▸ hv.1)
      have hobs' : x ∉ (processEntry s e).observed :=
        processEntry_observed_mono s e x hobs
      have step := ih (processEntry s e) hv.2 hobs'
      exact ⟨step.1.trans (processEntry_visible_other s e x hne), step.2⟩

/-! ### Claim theorems -/

/-- C1: for every scroll offset and every scrollable height > 0, one
recomputation sets `gamma = clamp(scrollOffset/scrollableHeight, 0, 1)^1.1`
and writes sunrise opacity `1 − gamma` and sunset opacity `gamma`, each
within rounding to 3 decimals; a scroll offset above the scrollable height
gives `gamma = 1` exactly (opacities 0 and 1) and a non-positive scroll
offset gives `gamma = 0` exactly (opacities 1 and 0). -/
theorem scroll_blend_gamma_formula (y yover yneg dh : ℝ) (hdh : 0 < dh)
    (hover : dh < yover) (hneg : yneg ≤ 0) :
    (writesAt y dh).sunriseOpacity = some (toFixed3 (1 - gammaOf y dh))
    ∧ (writesAt y dh).sunsetOpacity = some (toFixed3 (gammaOf y dh))
    ∧ gammaOf y dh = clamp (y / dh) 0 1 ^ (1.1 : ℝ)
    ∧ |toFixed3 (1 - gammaOf y dh) - (1 - gammaOf y dh)| ≤ 1 / 2000
    ∧ |toFixed3 (gammaOf y dh) - gammaOf y dh| ≤ 1 / 2000
    ∧ gammaOf yover dh = 1
    ∧ (writesAt yover dh).sunriseOpacity = some 0
    ∧ (writesAt yover dh).sunsetOpacity = some 1
    ∧ gammaOf yneg dh = 0
    ∧ (writesAt yneg dh).sunriseOpacity = some 1
    ∧ (writesAt yneg dh).sunsetOpacity = some 0 := by
  have hw := writesAt_eq y dh hdh
  have hwo := writesAt_eq yover dh hdh
  have hwn := writesAt_eq yneg dh hdh
  have hgo := gammaOf_of_overscroll yover dh hover hdh
  have hgn := gammaOf_of_nonpos yneg dh hneg hdh
  refine ⟨by rw [hw], by rw [hw], rfl, toFixed3_close _, toFixed3_close _,
    hgo, ?_, ?_, hgn, ?_, ?_⟩
  · rw [hwo, hgo]
    simp [toFixed3_zero]
  · rw [hwo, hgo]
    simp [toFixed3_one]
  · rw [hwn, hgn]
    simp [toFixed3_one]
  · rw [hwn, hgn]
    simp [toFixed3_zero]

/-- Witness for C1 at scroll offsets 50 (in range), 150 (overscroll) and
−25 (non-positive) with scrollable height 100. -/
theorem scroll_blend_gamma_formula_witness :
    (0:ℝ) < 100 ∧ (100:ℝ) < 150 ∧ (-25:ℝ) ≤ 0
    ∧ ((writesAt 50 100).sunriseOpacity = some (toFixed3 (1 - gammaOf 50 100))
      ∧ (writesAt 50 100).sunsetOpacity = some (toFixed3 (gammaOf 50 100))
      ∧ gammaOf 50 100 = clamp ((50:ℝ) / 100) 0 1 ^ (1.1 : ℝ)
      ∧ |toFixed3 (1 - gammaOf 50 100) - (1 - gammaOf 50 100)| ≤ 1 / 2000
      ∧ |toFixed3 (gammaOf 50 100) - gammaOf 50 100| ≤ 1 / 2000
      ∧ gammaOf 150 100 = 1
      ∧ (writesAt 150 100).sunriseOpacity = some 0
      ∧ (writesAt 150 100).sunsetOpacity = some 1
      ∧ gammaOf (-25) 100 = 0
      ∧ (writesAt (-25) 100).sunriseOpacity = some 1
      ∧ (writesAt (-25) 100).sunsetOpacity = some 0) :=
  ⟨by norm_num, by norm_num, by norm_num,
   scroll_blend_gamma_formula 50 150 (-25) 100 (by norm_num) (by norm_num) (by norm_num)⟩

/-- C3: when the cached scrollable height is non-positive, a recomputation
writes no styles, clears the ticking flag and leaves the rest of the state
unchanged (and, being a total function, raises no exception). -/
theorem degenerate_height_skips (cfg : BlendConfig) (s : EngineState)
    (h : s.docHeight ≤ 0) :
    updateVisuals cfg s = ({ s with ticking := false }, StyleWrites.none)
    ∧ (updateVisuals cfg s).2 = StyleWrites.none
    ∧ (updateVisuals cfg s).1.scrollY = s.scrollY
    ∧ (updateVisuals cfg s).1.docHeight = s.docHeight
    ∧ (updateVisuals cfg s).1.ticking = false := by
  have he : updateVisuals cfg s = ({ s with ticking := false }, StyleWrites.none) := by
    unfold updateVisuals
    rw [if_pos h]
  rw [he]
  exact ⟨rfl, rfl, rfl, rfl, rfl⟩

/-- Witness for C3 with scrollable height −5. -/
theorem degenerate_height_skips_witness :
    (⟨0, -5, true⟩ : EngineState).docHeight ≤ 0
    ∧ (updateVisuals ⟨true, true, true⟩ ⟨0, -5, true⟩
        = ({ scrollY := 0, docHeight := -5, ticking := false }, StyleWrites.none)
      ∧ (updateVisuals ⟨true, true, true⟩ ⟨0, -5, true⟩).2 = StyleWrites.none
      ∧ (updateVisuals ⟨true, true, true⟩ ⟨0, -5, true⟩).1.scrollY
          = (⟨0, -5, true⟩ : EngineState).scrollY
      ∧ (updateVisuals ⟨true, true, true⟩ ⟨0, -5, true⟩).1.docHeight
          = (⟨0, -5, true⟩ : EngineState).docHeight
      ∧ (updateVisuals ⟨true, true, true⟩ ⟨0, -5, true⟩).1.ticking = false) :=
  ⟨by norm_num, degenerate_height_skips ⟨true, true, true⟩ ⟨0, -5, true⟩ (by norm_num)⟩

/-- C10: for a fixed scrollable height > 0, the values one recomputation
writes are monotone in the scroll offset: sunrise opacity non-increasing,
sunset opacity non-decreasing, overlay opacity non-decreasing, and both
parallax translations non-increasing (hence non-decreasing in magnitude). -/
theorem blend_writes_monotone (dh y1 y2 : ℝ) (hdh : 0 < dh) (h : y1 ≤ y2) :
    (writesAt y2 dh).sunriseOpacity.getD 0 ≤ (writesAt y1 dh).sunriseOpacity.getD 0
    ∧ (writesAt y1 dh).sunsetOpacity.getD 0 ≤ (writesAt y2 dh).sunsetOpacity.getD 0
    ∧ (writesAt y1 dh).overlayOpacity.getD 0 ≤ (writesAt y2 dh).overlayOpacity.getD 0
    ∧ (writesAt y2 dh).sunriseTranslateY.getD 0 ≤ (writesAt y1 dh).sunriseTranslateY.getD 0
    ∧ |(writesAt y1 dh).sunriseTranslateY.getD 0| ≤ |(writesAt y2 dh).sunriseTranslateY.getD 0|
    ∧ (writesAt y2 dh).sunsetTranslateY.getD 0 ≤ (writesAt y1 dh).sunsetTranslateY.getD 0
    ∧ |(writesAt y1 dh).sunsetTranslateY.getD 0| ≤ |(writesAt y2 dh).sunsetTranslateY.getD 0| := by
  rw [writesAt_eq y1 dh hdh, writesAt_eq y2 dh hdh]
  have hg := gammaOf_mono dh hdh h
  have h1 := gammaOf_nonneg y1 dh
  have h2 := gammaOf_nonneg y2 dh
  simp only [Option.getD_some]
  refine ⟨toFixed3_mono (by linarith), toFixed3_mono hg, by linarith, by linarith,
    ?_, by linarith, ?_⟩
  · rw [abs_neg, abs_neg, abs_of_nonneg (by linarith : (0:ℝ) ≤ gammaOf y1 dh * 8),
      abs_of_nonneg (by linarith : (0:ℝ) ≤ gammaOf y2 dh * 8)]
    linarith
  · rw [abs_neg, abs_neg, abs_of_nonneg (by linarith : (0:ℝ) ≤ gammaOf y1 dh * 12),
      abs_of_nonneg (by linarith : (0:ℝ) ≤ gammaOf y2 dh * 12)]
    linarith

/-- Witness for C10 at scroll offsets 10 ≤ 60 with scrollable height 100. -/
theorem blend_writes_monotone_witness :
    (0:ℝ) < 100 ∧ (10:ℝ) ≤ 60
    ∧ ((writesAt 60 100).sunriseOpacity.getD 0 ≤ (writesAt 10 100).sunriseOpacity.getD 0
      ∧ (writesAt 10 100).sunsetOpacity.getD 0 ≤ (writesAt 60 100).sunsetOpacity.getD 0
      ∧ (writesAt 10 100).overlayOpacity.getD 0 ≤ (writesAt 60 100).overlayOpacity.getD 0
      ∧ (writesAt 60 100).sunriseTranslateY.getD 0 ≤ (writesAt 10 100).sunriseTranslateY.getD 0
      ∧ |(writesAt 10 100).sunriseTranslateY.getD 0| ≤ |(writesAt 60 100).sunriseTranslateY.getD 0|
      ∧ (writesAt 60 100).sunsetTranslateY.getD 0 ≤ (writesAt 10 100).sunsetTranslateY.getD 0
      ∧ |(writesAt 10 100).sunsetTranslateY.getD 0| ≤ |(writesAt 60 100).sunsetTranslateY.getD 0|) :=
  ⟨by norm_num, by norm_num, blend_writes_monotone 100 10 60 (by norm_num) (by norm_num)⟩

/-- C2: a burst of N ≥ 1 scroll events within one frame schedules exactly
one frame callback, the cached offset ends at the last event's offset, the
frame performs exactly one recomputation and it uses that last offset, and
the following frame performs none; moreover every scroll event records its
offset synchronously, an event arriving with no pending frame schedules
one, and an event arriving with a pending frame schedules none. -/
theorem scroll_coalescing (cfg : BlendConfig) (os : List ℝ) (o : ℝ)
    (s : EngineState) (ht : s.ticking = false) :
    (processScrolls (os ++ [o]) s).2 = 1
    ∧ (processScrolls (os ++ [o]) s).1.scrollY = o
    ∧ (runFrame cfg (processScrolls (os ++ [o]) s).1).2
        = [(o, (updateVisuals cfg (processScrolls (os ++ [o]) s).1).2)]
    ∧ (runFrame cfg (processScrolls (os ++ [o]) s).1).2.length = 1
    ∧ (runFrame cfg (runFrame cfg (processScrolls (os ++ [o]) s).1).1).2 = []
    ∧ (∀ (a b d : ℝ) (t : Bool), (onScroll d ⟨a, b, t⟩).1.scrollY = d)
    ∧ (∀ (a b d : ℝ), (onScroll d ⟨a, b, false⟩).2 = true)
    ∧ (∀ (a b d : ℝ), (onScroll d ⟨a, b, true⟩).2 = false) := by
  have hsY : (processScrolls (os ++ [o]) s).1.scrollY = o := by
    rw [processScrolls_scrollY, List.getLastD_concat]
  have htick : (processScrolls (os ++ [o]) s).1.ticking = true := by
    rw [processScrolls_ticking, ht]
    simp
  have hframe := runFrame_pending cfg _ htick
  refine ⟨?_, hsY, ?_, ?_, ?_, ?_, ?_, ?_⟩
  · rw [processScrolls_count, ht]
    simp
  · rw [hframe, hsY]
  · rw [hframe]
    rfl
  · rw [hframe]
    exact (runFrame_idle cfg _ (updateVisuals_ticking cfg _)).symm ▸ rfl
  · intro a b d t
    exact onScroll_scrollY d ⟨a, b, t⟩
  · intro a b d
    simp [onScroll_scheduled]
  · intro a b d
    simp [onScroll_scheduled]

/-- Witness for C2: three scroll events 10, 20, 30 within one frame from a
quiescent engine state. -/
theorem scroll_coalescing_witness :
    (⟨0, 100, false⟩ : EngineState).ticking = false
    ∧ ((processScrolls ([10, 20] ++ [30]) ⟨0, 100, false⟩).2 = 1
      ∧ (processScrolls ([10, 20] ++ [30]) ⟨0, 100, false⟩).1.scrollY = 30
      ∧ (runFrame ⟨true, true, true⟩
            (processScrolls ([10, 20] ++ [30]) ⟨0, 100, false⟩).1).2
          = [(30, (updateVisuals ⟨true, true, true⟩
                (processScrolls ([10, 20] ++ [30]) ⟨0, 100, false⟩).1).2)]
      ∧ (runFrame ⟨true, true, true⟩
            (processScrolls ([10, 20] ++ [30]) ⟨0, 100, false⟩).1).2.length = 1
      ∧ (runFrame ⟨true, true, true⟩
            (runFrame ⟨true, true, true⟩
              (processScrolls ([10, 20] ++ [30]) ⟨0, 100, false⟩).1).1).2 = []
      ∧ (∀ (a b d : ℝ) (t : Bool), (onScroll d ⟨a, b, t⟩).1.scrollY = d)
      ∧ (∀ (a b d : ℝ), (onScroll d ⟨a, b, false⟩).2 = true)
      ∧ (∀ (a b d : ℝ), (onScroll d ⟨a, b, true⟩).2 = false)) :=
  ⟨rfl, scroll_coalescing ⟨true, true, true⟩ [10, 20] 30 ⟨0, 100, false⟩ rfl⟩

/-- C4 counterexample: with one orb at the origin and two pointer-move
events (1,2) then (30,40) inside a single frame, the batched update uses
the coordinates of the FIRST event, not those of the last one as the claim
states — the scheduled `requestAnimationFrame` closure captures the event
that scheduled it, and later events in the frame are ignored entirely. -/
theorem pointer_uses_first_not_last :
    (runPointerFrame [⟨0, 0⟩] (processMoves [⟨1, 2⟩, ⟨30, 40⟩] ⟨false, Option.none⟩)).2
      = [moveOrbs [⟨0, 0⟩] ⟨1, 2⟩]
    ∧ (runPointerFrame [⟨0, 0⟩] (processMoves [⟨1, 2⟩, ⟨30, 40⟩] ⟨false, Option.none⟩)).2
      ≠ [moveOrbs [⟨0, 0⟩] ⟨30, 40⟩] := by
  constructor
  · rfl
  · norm_num [runPointerFrame, processMoves, onMouseMove, moveOrbs]

/-- C4 (amended): every burst of pointer-move events within a single frame
produces exactly one batched update covering all tracked orbs, and that
update uses the coordinates of the first event of the burst (the one that
scheduled the frame callback); the next frame performs no update. -/
theorem pointer_coalescing_first_event (orbs : List OrbRect)
    (e : PointerEvent) (es : List PointerEvent) :
    processMoves (e :: es) ⟨false, Option.none⟩ = ⟨true, some e⟩
    ∧ (runPointerFrame orbs (processMoves (e :: es) ⟨false, Option.none⟩)).2
        = [moveOrbs orbs e]
    ∧ (runPointerFrame orbs (processMoves (e :: es) ⟨false, Option.none⟩)).2.length = 1
    ∧ (moveOrbs orbs e).length = orbs.length
    ∧ (runPointerFrame orbs
        (runPointerFrame orbs (processMoves (e :: es) ⟨false, Option.none⟩)).1).2 = [] := by
  have hcap := processMoves_captures_head e es
  rw [hcap]
  exact ⟨rfl, rfl, rfl, List.length_map _ _, rfl⟩

/-- C5: the loader gate dismisses at whichever happens first of (a) all
per-image completion signals resolving — where an already-complete image's
signal resolves immediately, an image settling at time t resolves at t
whether it loaded or failed (failure never blocks), and an image that never
settles never resolves — and (b) a fixed 1500ms timer, so dismissal never
happens later than 1500ms; with zero tracked images dismissal is
synchronous on the same tick, with no timer involved. -/
theorem loader_gate_race (imgs : List ImgEl) (hne : imgs ≠ []) :
    loaderGate [] = LoaderDismissal.sync
    ∧ loaderGate imgs = LoaderDismissal.async (min (allSignalsTime imgs) 1500)
    ∧ min (allSignalsTime imgs) (1500 : WithTop ℕ) ≤ 1500
    ∧ (∀ fin, signalTime ⟨true, fin⟩ = 0)
    ∧ (∀ (t : ℕ) (b : Bool), signalTime ⟨false, some (t, b)⟩ = (t : WithTop ℕ))
    ∧ signalTime ⟨false, Option.none⟩ = ⊤
    ∧ loaderGate [⟨false, some (100, true)⟩, ⟨false, some (200, true)⟩,
        ⟨false, Option.none⟩] = LoaderDismissal.async 1500 := by
  refine ⟨rfl, ?_, min_le_right _ _, fun fin => rfl, fun t b => rfl, rfl, ?_⟩
  · unfold loaderGate
    rw [if_neg (by simpa using hne)]
  · have hall : allSignalsTime [⟨false, some (100, true)⟩, ⟨false, some (200, true)⟩,
        ⟨false, Option.none⟩] = ⊤ := by
      simp [allSignalsTime, signalTime]
    unfold loaderGate
    rw [if_neg (by simp), hall]
    simp

/-- Witness for C5 with a single already-complete tracked image. -/
theorem loader_gate_race_witness :
    ([⟨true, Option.none⟩] : List ImgEl) ≠ []
    ∧ (loaderGate [] = LoaderDismissal.sync
      ∧ loaderGate [⟨true, Option.none⟩]
          = LoaderDismissal.async (min (allSignalsTime [⟨true, Option.none⟩]) 1500)
      ∧ min (allSignalsTime [⟨true, Option.none⟩]) (1500 : WithTop ℕ) ≤ 1500
      ∧ (∀ fin, signalTime ⟨true, fin⟩ = 0)
      ∧ (∀ (t : ℕ) (b : Bool), signalTime ⟨false, some (t, b)⟩ = (t : WithTop ℕ))
      ∧ signalTime ⟨false, Option.none⟩ = ⊤
      ∧ loaderGate [⟨false, some (100, true)⟩, ⟨false, some (200, true)⟩,
          ⟨false, Option.none⟩] = LoaderDismissal.async 1500) :=
  ⟨by simp, loader_gate_race [⟨true, Option.none⟩] (by simp)⟩

/-- C6: dismissing the loader is idempotent — a second invocation leaves
the state produced by the first unchanged, the first invocation on a live
overlay adds the `hidden` state immediately and schedules exactly one
900ms removal (so removal happens at most once, and the final DOM state
after the timers fire is the same whether dismissal ran once or twice). -/
theorem removeLoader_idem :
    (∀ s, removeLoader (removeLoader s) = removeLoader s)
    ∧ removeLoader ⟨true, false, []⟩ = ⟨true, true, [900]⟩
    ∧ removeLoader ⟨true, true, [900]⟩ = ⟨true, true, [900]⟩
    ∧ fireRemoveTimers ⟨true, true, [900]⟩ = ⟨false, true, []⟩
    ∧ (removeLoader (removeLoader ⟨true, false, []⟩)).removeTimers.length ≤ 1
    ∧ fireRemoveTimers (removeLoader (removeLoader ⟨true, false, []⟩))
        = fireRemoveTimers (removeLoader ⟨true, false, []⟩) := by
  refine ⟨?_, by decide, by decide, by decide, by decide, by decide⟩
  intro s
  rcases s with ⟨p, h, t⟩
  cases p <;> cases h <;> rfl

/-- C7: when both parallax layers are present the engine attaches its
scroll listener and performs exactly one initialization recomputation,
using the page's current scroll position; when either layer is absent it
neither attaches nor runs. -/
theorem init_engine_runs_once (cfg1 cfg2 : BlendConfig) (s1 s2 : EngineState)
    (h1 : cfg1.hasSunrise = true) (h1' : cfg1.hasSunset = true)
    (h2 : cfg2.hasSunrise = false ∨ cfg2.hasSunset = false) :
    initScrollEngine cfg1 s1 = (true, [(s1.scrollY, (updateVisuals cfg1 s1).2)])
    ∧ (initScrollEngine cfg1 s1).2.length = 1
    ∧ initScrollEngine cfg2 s2 = (false, [])
    ∧ (initScrollEngine cfg2 s2).2.length = 0 := by
  have e1 : initScrollEngine cfg1 s1 = (true, [(s1.scrollY, (updateVisuals cfg1 s1).2)]) := by
    unfold initScrollEngine
    rw [if_pos (by simp [h1, h1'])]
  have e2 : initScrollEngine cfg2 s2 = (false, []) := by
    unfold initScrollEngine
    rcases h2 with h | h <;> rw [if_neg (by simp [h])]
  exact ⟨e1, by rw [e1]; rfl, e2, by rw [e2]; rfl⟩

/-- Witness for C7: a page with both layers (and the overlay) next to a
page missing the sunset layer. -/
theorem init_engine_runs_once_witness :
    (⟨true, true, true⟩ : BlendConfig).hasSunrise = true
    ∧ (⟨true, true, true⟩ : BlendConfig).hasSunset = true
    ∧ ((⟨true, false, true⟩ : BlendConfig).hasSunrise = false
        ∨ (⟨true, false, true⟩ : BlendConfig).hasSunset = false)
    ∧ (initScrollEngine ⟨true, true, true⟩ ⟨7, 100, false⟩
        = (true, [((⟨7, 100, false⟩ : EngineState).scrollY,
            (updateVisuals ⟨true, true, true⟩ ⟨7, 100, false⟩).2)])
      ∧ (initScrollEngine ⟨true, true, true⟩ ⟨7, 100, false⟩).2.length = 1
      ∧ initScrollEngine ⟨true, false, true⟩ ⟨0, 0, false⟩ = (false, [])
      ∧ (initScrollEngine ⟨true, false, true⟩ ⟨0, 0, false⟩).2.length = 0) :=
  ⟨rfl, rfl, Or.inr rfl,
   init_engine_runs_once ⟨true, true, true⟩ ⟨true, false, true⟩
     ⟨7, 100, false⟩ ⟨0, 0, false⟩ rfl rfl (Or.inr rfl)⟩

/-- C8: an observed element that receives a satisfying intersection
notification is marked visible and removed from observation at that very
step; along any further notification sequence the browser can actually
deliver, it stays visible and unobserved, every visible element stays
visible, and the visibility of any unobserved element never changes again
— the revealed state is monotonic, one-way, and entered exactly once. -/
theorem reveal_exactly_once (s : RevealState) (x : ℕ) (es : List ObsEntry)
    (hval : validTrace s (⟨x, true⟩ :: es) = true) :
    x ∈ s.observed
    ∧ x ∈ (processEntry s ⟨x, true⟩).visible
    ∧ x ∉ (processEntry s ⟨x, true⟩).observed
    ∧ x ∈ (runEntries (processEntry s ⟨x, true⟩) es).visible
    ∧ x ∉ (runEntries (processEntry s ⟨x, true⟩) es).observed
    ∧ (∀ y, y ∈ (processEntry s ⟨x, true⟩).visible →
        y ∈ (runEntries (processEntry s ⟨x, true⟩) es).visible)
    ∧ (∀ y, y ∉ (processEntry s ⟨x, true⟩).observed →
        (y ∈ (runEntries (processEntry s ⟨x, true⟩) es).visible
          ↔ y ∈ (processEntry s ⟨x, true⟩).visible)) := by
  have hsplit : x ∈ s.observed ∧ validTrace (processEntry s ⟨x, true⟩) es = true := by
    simpa [validTrace] using hval
  have hval' := hsplit.2
  have hv : x ∈ (processEntry s ⟨x, true⟩).visible := by
    show x ∈ (if x ∈ s.visible then s.visible else x :: s.visible)
    split
    · assumption
    · exact List.mem_cons_self x s.visible
  have hno : x ∉ (processEntry s ⟨x, true⟩).observed := by
    show x ∉ s.observed.filter _
    intro hmem
    have := List.of_mem_filter hmem
    simp at this
  refine ⟨hsplit.1, hv, hno, runEntries_visible_mono es _ x hv,
    (runEntries_frozen es _ x hval' hno).2,
    fun y hy => runEntries_visible_mono es _ y hy,
    fun y hy => (runEntries_frozen es _ y hval' hy).1⟩

/-- Witness for C8: element 1 of an observer watching elements 1 and 2
receives a satisfying notification, then element 2 does. -/
theorem reveal_exactly_once_witness :
    validTrace ⟨[1, 2], []⟩ [⟨1, true⟩, ⟨2, true⟩] = true
    ∧ (1 ∈ (⟨[1, 2], []⟩ : RevealState).observed
      ∧ 1 ∈ (processEntry ⟨[1, 2], []⟩ ⟨1, true⟩).visible
      ∧ 1 ∉ (processEntry ⟨[1, 2], []⟩ ⟨1, true⟩).observed
      ∧ 1 ∈ (runEntries (processEntry ⟨[1, 2], []⟩ ⟨1, true⟩) [⟨2, true⟩]).visible
      ∧ 1 ∉ (runEntries (processEntry ⟨[1, 2], []⟩ ⟨1, true⟩) [⟨2, true⟩]).observed
      ∧ (∀ y, y ∈ (processEntry ⟨[1, 2], []⟩ ⟨1, true⟩).visible →
          y ∈ (runEntries (processEntry ⟨[1, 2], []⟩ ⟨1, true⟩) [⟨2, true⟩]).visible)
      ∧ (∀ y, y ∉ (processEntry ⟨[1, 2], []⟩ ⟨1, true⟩).observed →
          (y ∈ (runEntries (processEntry ⟨[1, 2], []⟩ ⟨1, true⟩) [⟨2, true⟩]).visible
            ↔ y ∈ (processEntry ⟨[1, 2], []⟩ ⟨1, true⟩).visible))) :=
  ⟨by decide, reveal_exactly_once ⟨[1, 2], []⟩ 1 [⟨2, true⟩] (by decide)⟩

/-- C9: with both hero title elements present the intro sequencer performs
exactly the three staged changes — mark the title visible on the next
paint, shimmer at 400ms, and add the floating class a further 1600ms later
(2000ms from start); with either element absent the whole sequence is
skipped and no timer is started. -/
theorem intro_sequence_staged (b1 b2 : Bool) (h : (b1 && b2) = false) :
    introSequence true true
      = [(IntroTiming.nextPaint, IntroAction.markVisible),
         (IntroTiming.afterMs 400, IntroAction.shimmer),
         (IntroTiming.afterMs 2000, IntroAction.floaty)]
    ∧ (introSequence true true).length = 3
    ∧ introSequence b1 b2 = [] := by
  refine ⟨rfl, rfl, ?_⟩
  unfold introSequence
  rw [if_neg (by simp [h])]

/-- Witness for C9: the title element is absent. -/
theorem intro_sequence_staged_witness :
    ((false && true) = false)
    ∧ (introSequence true true
        = [(IntroTiming.nextPaint, IntroAction.markVisible),
           (IntroTiming.afterMs 400, IntroAction.shimmer),
           (IntroTiming.afterMs 2000, IntroAction.floaty)]
      ∧ (introSequence true true).length = 3
      ∧ introSequence false true = []) :=
  ⟨rfl, intro_sequence_staged false true rfl⟩

end BareVision
